import Mathlib

/-!
Verification development for the NoctiForge CLI push/trigger commands.

The Rust sources are shallowly embedded: each pure decision (validation,
package/binary resolution, path composition, environment construction,
error selection) becomes an executable Lean definition, and effectful
steps (existence checks, process spawning) are modelled by passing an
explicit list of existing filesystem paths and by returning the spawn
specification that the code would hand to the operating system.
-/

deriving instance DecidableEq for Except

namespace NoctiForge

/-! ## Path model

Rust `Path::join` keeps the right operand whole when it is absolute and
otherwise appends it after a separator.  Paths are modelled as strings.
-/

/-- Bool prefix test on strings, via the underlying character lists. -/
def strStartsWith (s p : String) : Bool :=
  p.data.isPrefixOf s.data

/-- `Path::join`: an absolute right operand replaces the base. -/
def pathJoin (base p : String) : String :=
  if strStartsWith p ("/") then p else base ++ ("/") ++ p

/-- `Path::parent`: drop the last component (the text after the final
separator).  `none` when the path has no separator at all. -/
def dirname (p : String) : Option String :=
  match p.data.reverse.dropWhile (fun c => c != '/') with
  | [] => none
  | _ :: rest => some (String.mk rest.reverse)

/-- `child` lies strictly under directory `root`. -/
def isSubPathOf (child root : String) : Bool :=
  strStartsWith child (root ++ ("/"))

/-- Rust `str::trim`: remove leading and trailing whitespace. -/
def strTrim (s : String) : String :=
  String.mk (((s.data.dropWhile Char.isWhitespace).reverse.dropWhile Char.isWhitespace).reverse)

/-- Rust `str::to_lowercase`, character by character. -/
def strToLower (s : String) : String :=
  String.mk (s.data.map Char.toLower)

/-! ## CustomBuild (src/command/push/custom.rs)

`CustomBuild::validate` rejects an empty/whitespace script and a zero
timeout; the dangerous-pattern scan and the long-timeout check only log
warnings and never fail, so they do not appear among the error cases.
`CustomBuild::build` then checks the project path, resolves the working
directory (joining a declared override onto the project path and
requiring it to exist), and spawns the shell with the script plus three
environment variables.  `prepare` embeds `build` up to the spawn point,
returning the spawn specification the code passes to the OS.
-/

structure CustomBuild where
  script : String
  timeout_seconds : Nat
  working_directory : Option String
  shell : String
deriving DecidableEq, Repr

inductive CustomBuildError
  | emptyScript
  | zeroTimeout
  | missingProjectPath (p : String)
  | missingWorkingDirectory (p : String)
deriving DecidableEq, Repr

def CustomBuild.validate (cb : CustomBuild) : Except CustomBuildError Unit :=
  if strTrim cb.script = ("") then Except.error CustomBuildError.emptyScript
  else if cb.timeout_seconds = 0 then Except.error CustomBuildError.zeroTimeout
  else Except.ok ()

/-- Shell arguments on the non-Windows platform (`vec!["-c"]`). -/
def CustomBuild.get_shell_args (_cb : CustomBuild) : List String :=
  [("-c")]

/-- The process specification handed to the OS: shell, arguments,
working directory and the added environment variables, in the order the
code sets them (`OUTPUT`, `PROJECT_PATH`, `TEMP_PATH`). -/
structure SpawnSpec where
  shell : String
  args : List String
  cwd : String
  env : List (String × String)
deriving DecidableEq, Repr

def CustomBuild.mkSpawn (cb : CustomBuild) (working_dir temp_path : String) : SpawnSpec :=
  { shell := cb.shell
    args := cb.get_shell_args ++ [cb.script]
    cwd := working_dir
    env := [(("OUTPUT"), temp_path), (("PROJECT_PATH"), working_dir), (("TEMP_PATH"), temp_path)] }

/-- `CustomBuild::build` up to the `cmd.spawn()` call.  `fs` lists the
existing filesystem paths. -/
def CustomBuild.prepare (cb : CustomBuild) (fs : List String) (project_path temp_path : String) :
    Except CustomBuildError SpawnSpec :=
  match cb.validate with
  | Except.error e => Except.error e
  | Except.ok _ =>
    if project_path ∈ fs then
      match cb.working_directory with
      | some wd =>
        if pathJoin project_path wd ∈ fs then
          Except.ok (cb.mkSpawn (pathJoin project_path wd) temp_path)
        else Except.error (CustomBuildError.missingWorkingDirectory (pathJoin project_path wd))
      | none => Except.ok (cb.mkSpawn project_path temp_path)
    else Except.error (CustomBuildError.missingProjectPath project_path)

/-! ## RustBuild (src/command/push/rust.rs)

`RustBuildConfig` is the deserialized `[build]` table; `RustBuild` is the
runtime configuration.  Note that `RustBuild::default` (reached through
`RustBuild::new()` inside the `From` conversion) sets the target triple
to `x86_64-unknown-linux-musl`, so a config whose `target` field is unset
still carries that triple.
-/

inductive BuildProfile
  | release
  | debug
deriving DecidableEq, Repr

structure RustBuildConfig where
  target : Option String
  profile : String
  package_name : Option String
  binary_name : Option String
deriving DecidableEq, Repr

structure RustBuild where
  target : Option String
  profile : BuildProfile
  package_name : Option String
  binary_name : Option String
deriving DecidableEq, Repr

/-- `impl Default for RustBuild`. -/
def RustBuild.default : RustBuild :=
  { target := some ("x86_64-unknown-linux-musl")
    profile := BuildProfile.release
    package_name := none
    binary_name := none }

/-- `RustBuild::new()` delegates to `Default`. -/
def RustBuild.new : RustBuild :=
  RustBuild.default

def RustBuild.setTarget (rb : RustBuild) (t : String) : RustBuild :=
  { rb with target := some t }

def RustBuild.setProfile (rb : RustBuild) (p : BuildProfile) : RustBuild :=
  { rb with profile := p }

def RustBuild.setPackageName (rb : RustBuild) (n : String) : RustBuild :=
  { rb with package_name := some n }

def RustBuild.setBinaryName (rb : RustBuild) (n : String) : RustBuild :=
  { rb with binary_name := some n }

/-- Profile string parsing in `From<RustBuildConfig>`: `"debug"` maps to
Debug, anything else (including unknown strings, after a logged warning)
to Release. -/
def parseProfile (s : String) : BuildProfile :=
  if strToLower s = ("debug") then BuildProfile.debug else BuildProfile.release

/-- `impl From<RustBuildConfig> for RustBuild`. -/
def RustBuild.fromConfig (config : RustBuildConfig) : RustBuild :=
  let b := RustBuild.new.setProfile (parseProfile config.profile)
  let b := match config.target with
    | some t => b.setTarget t
    | none => b
  let b := match config.package_name with
    | some n => b.setPackageName n
    | none => b
  match config.binary_name with
  | some n => b.setBinaryName n
  | none => b

/-- The argument list handed to `cargo` by `run_cargo_build`
(`build`, then `--release` unless the profile is Debug, then
`--target <triple>` when a triple is set). -/
def RustBuild.cargoBuildArgs (rb : RustBuild) : List String :=
  [("build")]
    ++ (match rb.profile with
        | BuildProfile.release => [("--release")]
        | BuildProfile.debug => [])
    ++ (match rb.target with
        | some t => [("--target"), t]
        | none => [])

/-- Directory component contributed by the profile. -/
def profileDir : BuildProfile → String
  | BuildProfile.release => ("release")
  | BuildProfile.debug => ("debug")

/-- `RustBuild::get_binary_path`. -/
def RustBuild.get_binary_path (rb : RustBuild) (project_path binary_name : String) : String :=
  let p := pathJoin project_path ("target")
  let p := match rb.target with
    | some t => pathJoin p t
    | none => p
  let p := pathJoin p (profileDir rb.profile)
  pathJoin p binary_name

/-! ### Cargo metadata and package/binary-target resolution -/

structure CargoTarget where
  name : String
  kind : List String
deriving DecidableEq, Repr

structure Package where
  name : String
  manifest_path : String
  targets : List CargoTarget
deriving DecidableEq, Repr

structure CargoMetadata where
  packages : List Package
deriving DecidableEq, Repr

inductive PackageError
  | packageNotFound (name : String)
  | noPackagesFound
deriving DecidableEq, Repr

/-- `RustBuild::find_package`: configured name wins (exact match,
error when absent); otherwise the package whose manifest path is the
project root's `Cargo.toml`; otherwise the first package, with an error
only on an empty package list. -/
def RustBuild.find_package (rb : RustBuild) (metadata : CargoMetadata) (project_path : String) :
    Except PackageError Package :=
  match rb.package_name with
  | some name =>
    match metadata.packages.find? (fun p => p.name == name) with
    | some p => Except.ok p
    | none => Except.error (PackageError.packageNotFound name)
  | none =>
    match metadata.packages.find?
        (fun p => p.manifest_path == pathJoin project_path ("Cargo.toml")) with
    | some p => Except.ok p
    | none =>
      match metadata.packages.head? with
      | some p => Except.ok p
      | none => Except.error PackageError.noPackagesFound

inductive BinaryTargetError
  | binaryTargetNotFound (binary packageName : String)
  | noBinaryTargets (packageName : String) (available : List String)
deriving DecidableEq, Repr

/-- A target's kind list includes `"bin"`. -/
def isBinTarget (t : CargoTarget) : Bool :=
  t.kind.contains ("bin")

/-- `RustBuild::find_binary_target`: configured name requires an exact
match among bin-kind targets; otherwise the first bin-kind target; the
no-binary-targets error lists every target name of the package. -/
def RustBuild.find_binary_target (rb : RustBuild) (package : Package) :
    Except BinaryTargetError CargoTarget :=
  match rb.binary_name with
  | some name =>
    match package.targets.find? (fun t => isBinTarget t && t.name == name) with
    | some t => Except.ok t
    | none => Except.error (BinaryTargetError.binaryTargetNotFound name package.name)
  | none =>
    match package.targets.find? (fun t => isBinTarget t) with
    | some t => Except.ok t
    | none =>
      Except.error
        (BinaryTargetError.noBinaryTargets package.name (package.targets.map CargoTarget.name))

/-! ### Filesystem state and `RustBuild::copy_binary`

Files are a path-to-contents association list (byte contents as `List
Nat`); directories a path list.  `create_dir_all` is modelled as
ensuring the requested directory entry exists.
-/

structure FsState where
  files : List (String × List Nat)
  dirs : List String
deriving DecidableEq, Repr

def addDir (dirs : List String) (d : String) : List String :=
  if d ∈ dirs then dirs else d :: dirs

/-- Files lying strictly under directory `dir`. -/
def FsState.filesUnder (fs : FsState) (dir : String) : List (String × List Nat) :=
  fs.files.filter (fun kv => isSubPathOf kv.1 dir)

/-- `RustBuild::copy_binary`: the binary is copied to
`temp_path/bootstrap`; the parent directory of the destination is
created (as needed) before the copy; `fs::copy` fails when the source is
missing and overwrites the destination.  (A failed copy returns only the
error, so the directory creation in the error case is unobservable
here.) -/
def copy_binary (fs : FsState) (binary_path temp_path : String) : Except String FsState :=
  match fs.files.lookup binary_path with
  | none => Except.error (("Failed to copy binary from ") ++ binary_path)
  | some c =>
    Except.ok
      { files :=
          (pathJoin temp_path ("bootstrap"), c)
            :: fs.files.filter (fun kv => kv.1 != pathJoin temp_path ("bootstrap")),
        dirs :=
          match dirname (pathJoin temp_path ("bootstrap")) with
          | some parent => addDir fs.dirs parent
          | none => fs.dirs }

/-! ## Archive/publish stage (src/command/push/mod.rs)

The duplex pipe is modelled by the total sequence of bytes the tar task
wrote before finishing, plus a flag for whether the write end is closed.
The tar task owns the writer, so the writer is dropped — closing the
write end — when the task returns, on its success and failure paths
alike.  The outbound stream's read loop reads chunks of up to 8192
bytes; a zero-length read (empty buffer, writer closed) terminates it
cleanly, while an empty buffer with the writer still open would block.
-/

def CHUNK : Nat := 8192

/-- Run the outbound stream's read loop over the pipe: returns the
chunk sequence yielded as push requests and `true` when the loop ended
on a clean zero-length read (end-of-stream) rather than blocking. -/
def drainPipe (buffer : List Nat) (writerClosed : Bool) : List (List Nat) × Bool :=
  if h : buffer = [] then
    (([]), writerClosed)
  else
    let r := drainPipe (buffer.drop CHUNK) writerClosed
    (buffer.take CHUNK :: r.1, r.2)
termination_by buffer.length
decreasing_by
  have hpos : 0 < buffer.length := List.length_pos.mpr h
  simp only [List.length_drop, CHUNK]
  omega

/-- The orchestrator's decision after the concurrent stage, following
the source order: the publish call is awaited first and its error
returned at once (`?`), and only after a successful publish is the tar
task awaited and its error surfaced. -/
def archivePublishResult (tarResult : Except String Unit) (pushResult : Except String String) :
    Except String String :=
  match pushResult with
  | Except.error e => Except.error e
  | Except.ok digest =>
    match tarResult with
    | Except.error e => Except.error e
    | Except.ok _ => Except.ok digest

/-- Whether control reaches `tar_task.await` at all: the `?` on the
publish call returns early on its error, before the tar task is
awaited. -/
def tarTaskAwaited (pushResult : Except String String) : Bool :=
  match pushResult with
  | Except.error _ => false
  | Except.ok _ => true

/-! ## Name binding (src/command/push/mod.rs, lines 194-221) -/

structure SetDigestToNameResponse where
  success : Bool
deriving DecidableEq, Repr

/-- Transport-level outcome of the control-plane interaction: the
connection may fail, the call may fail, or a response arrives. -/
inductive ControlPlaneTransport
  | connectFailed
  | callFailed
  | responded (resp : SetDigestToNameResponse)
deriving DecidableEq, Repr

inductive BindError
  | associationUnreachableConnect (url : String)
  | associationUnreachableCall
  | associationRejected
deriving DecidableEq, Repr

/-- The error message attached at each failure site (the `context`/
`bail!` strings of the source). -/
def bindErrorMessage : BindError → String
  | BindError.associationUnreachableConnect url =>
    ("Failed to connect to ControlPlaneService at ") ++ url
  | BindError.associationUnreachableCall => ("Failed to set digest to name mapping")
  | BindError.associationRejected => ("Control plane rejected digest to name mapping")

/-- The name-binding step: transport failures carry their own errors;
a response with `success = false` is rejected with a distinct error;
`success = true` completes the pipeline. -/
def bindDigest (url : String) (tr : ControlPlaneTransport) : Except BindError Unit :=
  match tr with
  | ControlPlaneTransport.connectFailed =>
    Except.error (BindError.associationUnreachableConnect url)
  | ControlPlaneTransport.callFailed => Except.error BindError.associationUnreachableCall
  | ControlPlaneTransport.responded resp =>
    if resp.success then Except.ok ()
    else Except.error BindError.associationRejected

/-! ## Trigger command (src/command/trigger.rs)

After a response is received, `response.into_inner().outcome.unwrap()`
panics when the optional outcome is absent; a present outcome — success
payload or problem description — is printed and the command returns
`Ok(())`.
-/

structure SuccessPayload where
  body : String
deriving DecidableEq, Repr

structure ProblemDescription where
  ptype : String
  detail : String
  pinstance : String
  extensions : List (String × String)
deriving DecidableEq, Repr

inductive ExecuteOutcome
  | success (s : SuccessPayload)
  | problem (p : ProblemDescription)
deriving DecidableEq, Repr

inductive TriggerResult
  | panicked
  | ok (printed : List String)
deriving DecidableEq, Repr

/-- Handling of the worker response's optional `outcome` field. -/
def handleOutcome : Option ExecuteOutcome → TriggerResult
  | none => TriggerResult.panicked
  | some (ExecuteOutcome.success s) => TriggerResult.ok [s.body]
  | some (ExecuteOutcome.problem p) =>
    TriggerResult.ok
      ([p.ptype, p.detail, p.pinstance] ++ p.extensions.map (fun kv => kv.1 ++ (" ") ++ kv.2))

/-! ## Concrete example configurations and data -/

/-- A whitespace-only script (from the source's own test data). -/
def c6empty : CustomBuild :=
  { script := ("   "), timeout_seconds := 300, working_directory := none, shell := ("sh") }

/-- A valid script with a relative working-directory override. -/
def c4build : CustomBuild :=
  { script := ("echo hi"), timeout_seconds := 300, working_directory := some ("sub"), shell := ("sh") }

def c4fs : List String := [("/proj"), ("/proj/sub")]

/-- A valid script with an absolute working-directory override. -/
def c5build : CustomBuild :=
  { script := ("make"), timeout_seconds := 60, working_directory := some ("/etc"), shell := ("sh") }

def c5fs : List String := [("/proj"), ("/etc")]

/-- A `[build] type = "rust"` table with every optional field unset. -/
def c3cfg : RustBuildConfig :=
  { target := none, profile := ("release"), package_name := none, binary_name := none }

def pkgA : Package :=
  { name := ("A"), manifest_path := ("/proj/Cargo.toml"),
    targets := [{ name := ("A"), kind := [("bin")] }] }

def pkgB : Package :=
  { name := ("B"), manifest_path := ("/proj/crates/b/Cargo.toml"),
    targets := [{ name := ("blib"), kind := [("lib")] }, { name := ("B"), kind := [("bin")] }] }

def mdAB : CargoMetadata := { packages := [pkgA, pkgB] }

/-- A `RustBuild` with no package or binary name configured. -/
def rbNone : RustBuild :=
  { target := none, profile := BuildProfile.release, package_name := none, binary_name := none }

/-- A `RustBuild` configured with `package_name = "B"` and
`binary_name = "B"`. -/
def rbNamedB : RustBuild :=
  { target := none, profile := BuildProfile.release,
    package_name := some ("B"), binary_name := some ("B") }

/-- A filesystem holding one built binary and an empty staging directory. -/
def c8fs : FsState :=
  { files := [(("/proj/target/x86_64-unknown-linux-musl/release/server"), [7, 69, 76, 70])],
    dirs := [("/proj")] }

/-! ## Theorems -/

/-- C6: an empty or whitespace-only script, or a zero timeout, makes the
build fail in validation, deterministically and before any process could
be spawned (no spawn specification is ever produced); a configuration
with non-empty trimmed script and positive timeout validates
successfully. -/
theorem c6_script_validation (cb : CustomBuild) :
    (strTrim cb.script = ("") →
      cb.validate = Except.error CustomBuildError.emptyScript
      ∧ ∀ fs pp tp, cb.prepare fs pp tp = Except.error CustomBuildError.emptyScript)
    ∧ (strTrim cb.script ≠ ("") → cb.timeout_seconds = 0 →
      cb.validate = Except.error CustomBuildError.zeroTimeout
      ∧ ∀ fs pp tp, cb.prepare fs pp tp = Except.error CustomBuildError.zeroTimeout)
    ∧ (strTrim cb.script ≠ ("") → cb.timeout_seconds ≠ 0 → cb.validate = Except.ok ()) := by
  refine ⟨?_, ?_, ?_⟩
  · intro h
    have hv : cb.validate = Except.error CustomBuildError.emptyScript := by
      simp [CustomBuild.validate, h]
    exact ⟨hv, fun fs pp tp => by simp [CustomBuild.prepare, hv]⟩
  · intro h h0
    have hv : cb.validate = Except.error CustomBuildError.zeroTimeout := by
      simp [CustomBuild.validate, h, h0]
    exact ⟨hv, fun fs pp tp => by simp [CustomBuild.prepare, hv]⟩
  · intro h h0
    simp [CustomBuild.validate, h, h0]

theorem c6_script_validation_witness :
    CustomBuild.prepare c6empty [] ("/p") ("/t") = Except.error CustomBuildError.emptyScript :=
  ((c6_script_validation c6empty).1 (by decide)).2 [] ("/p") ("/t")

/-- C10: with the `outcome` field absent the trigger command panics on
the `unwrap`; with any present outcome — success payload or problem
description — it prints the payload and returns without error. -/
theorem c10_trigger_unwrap :
    handleOutcome none = TriggerResult.panicked
    ∧ (∀ s, ∃ ls, handleOutcome (some (ExecuteOutcome.success s)) = TriggerResult.ok ls)
    ∧ (∀ p, ∃ ls, handleOutcome (some (ExecuteOutcome.problem p)) = TriggerResult.ok ls) :=
  ⟨rfl, fun _ => ⟨_, rfl⟩, fun _ => ⟨_, rfl⟩⟩

/-- The connect-failure message can never coincide with the rejection
message, whatever the configured endpoint: the first characters differ. -/
theorem connect_message_ne_rejected (url : String) :
    (("Failed to connect to ControlPlaneService at ") ++ url)
      ≠ ("Control plane rejected digest to name mapping") := by
  intro h
  have h2 := congrArg String.data h
  rw [String.data_append] at h2
  have h3 : ('F' :: ((("ailed to connect to ControlPlaneService at ").data) ++ url.data))
      = ('C' :: (("ontrol plane rejected digest to name mapping").data)) := h2
  injection h3 with h4 _
  exact absurd h4 (by decide)

/-- C9: a transport-level success whose response reports failure yields
the rejection error, which is distinct (as an error kind and as a
message) from both transport failures; a reported success completes the
binding; transport failures yield their own errors. -/
theorem c9_name_binding_errors (url : String) (resp : SetDigestToNameResponse) :
    (resp.success = true → bindDigest url (ControlPlaneTransport.responded resp) = Except.ok ())
    ∧ (resp.success = false →
        bindDigest url (ControlPlaneTransport.responded resp)
          = Except.error BindError.associationRejected)
    ∧ bindDigest url ControlPlaneTransport.connectFailed
        = Except.error (BindError.associationUnreachableConnect url)
    ∧ bindDigest url ControlPlaneTransport.callFailed
        = Except.error BindError.associationUnreachableCall
    ∧ BindError.associationRejected ≠ BindError.associationUnreachableConnect url
    ∧ BindError.associationRejected ≠ BindError.associationUnreachableCall
    ∧ bindErrorMessage BindError.associationRejected
        ≠ bindErrorMessage (BindError.associationUnreachableConnect url)
    ∧ bindErrorMessage BindError.associationRejected
        ≠ bindErrorMessage BindError.associationUnreachableCall := by
  refine ⟨?_, ?_, rfl, rfl, by simp, by simp, ?_, by decide⟩
  · intro h; simp [bindDigest, h]
  · intro h; simp [bindDigest, h]
  · intro h
    exact connect_message_ne_rejected url h.symm

theorem c9_name_binding_errors_witness :
    bindDigest ("http://localhost:50002") (ControlPlaneTransport.responded ⟨false⟩)
      = Except.error BindError.associationRejected :=
  (c9_name_binding_errors ("http://localhost:50002") ⟨false⟩).2.1 rfl

/-- C3 counterexample: for the configuration with no target triple set,
the claim predicts a cargo invocation without `--target` and a binary
path without a triple directory; the code defaults the triple, passes
`--target x86_64-unknown-linux-musl` and puts the triple directory in
the path. -/
theorem c3_counterexample :
    ¬ ((("--target") ∉ (RustBuild.fromConfig c3cfg).cargoBuildArgs)
       ∧ (RustBuild.fromConfig c3cfg).get_binary_path ("/proj") ("app")
           = ("/proj/target/release/app")) := by
  decide

/-- C3 (amended): when no target triple is configured, the conversion
defaults it to `x86_64-unknown-linux-musl`; the build tool is then
invoked with that `--target` flag and the expected binary path includes
that triple directory between the build-output directory and the
profile directory. -/
theorem c3_default_target_amended (cfg : RustBuildConfig) (pp bn : String)
    (h : cfg.target = none) :
    (RustBuild.fromConfig cfg).target = some ("x86_64-unknown-linux-musl")
    ∧ (("--target") ∈ (RustBuild.fromConfig cfg).cargoBuildArgs)
    ∧ (("x86_64-unknown-linux-musl") ∈ (RustBuild.fromConfig cfg).cargoBuildArgs)
    ∧ (RustBuild.fromConfig cfg).get_binary_path pp bn
        = pathJoin
            (pathJoin (pathJoin (pathJoin pp ("target")) ("x86_64-unknown-linux-musl"))
              (profileDir (RustBuild.fromConfig cfg).profile))
            bn := by
  obtain ⟨t, prof, pn, bnm⟩ := cfg
  simp only [RustBuildConfig.target] at h
  subst h
  cases hp : parseProfile prof <;> cases pn <;> cases bnm <;>
    simp [RustBuild.fromConfig, RustBuild.new, RustBuild.default, RustBuild.setProfile,
      RustBuild.setPackageName, RustBuild.setBinaryName, RustBuild.cargoBuildArgs,
      RustBuild.get_binary_path, hp, profileDir]

theorem c3_default_target_amended_witness :
    (RustBuild.fromConfig c3cfg).target = some ("x86_64-unknown-linux-musl")
    ∧ (("--target") ∈ (RustBuild.fromConfig c3cfg).cargoBuildArgs)
    ∧ (("x86_64-unknown-linux-musl") ∈ (RustBuild.fromConfig c3cfg).cargoBuildArgs)
    ∧ (RustBuild.fromConfig c3cfg).get_binary_path ("/proj") ("app")
        = pathJoin
            (pathJoin (pathJoin (pathJoin ("/proj") ("target")) ("x86_64-unknown-linux-musl"))
              (profileDir (RustBuild.fromConfig c3cfg).profile))
            ("app") :=
  c3_default_target_amended c3cfg ("/proj") ("app") rfl

/-- C4 counterexample: with a working-directory override configured,
preparation succeeds yet no environment variable carries the
project-path parameter of the build call — `PROJECT_PATH` holds the
resolved working directory instead — refuting the claim that two of the
three variables expose the build call's two path parameters regardless
of the override. -/
theorem c4_counterexample :
    ¬ (∃ spec, CustomBuild.prepare c4build c4fs ("/proj") ("/out") = Except.ok spec
        ∧ ∃ k, (k, ("/proj")) ∈ spec.env) := by
  intro hcl
  obtain ⟨spec, hspec, k, hk⟩ := hcl
  have heq : CustomBuild.prepare c4build c4fs ("/proj") ("/out")
      = Except.ok (CustomBuild.mkSpawn c4build ("/proj/sub") ("/out")) := by decide
  rw [heq] at hspec
  injection hspec with hspec
  subst hspec
  simp only [CustomBuild.mkSpawn, List.mem_cons, List.not_mem_nil, or_false,
    Prod.mk.injEq] at hk
  rcases hk with ⟨_, hv⟩ | ⟨_, hv⟩ | ⟨_, hv⟩ <;> exact absurd hv (by decide)

/-- C4 (amended): every successful preparation augments the environment
with exactly three variables, in source order `OUTPUT`, `PROJECT_PATH`,
`TEMP_PATH`: `OUTPUT` and `TEMP_PATH` both expose the output directory,
and `PROJECT_PATH` exposes the resolved working directory — which equals
the project-path parameter exactly when no working-directory override is
configured. -/
theorem c4_env_amended (cb : CustomBuild) (fs : List String) (pp tp : String) (spec : SpawnSpec)
    (h : cb.prepare fs pp tp = Except.ok spec) :
    spec.env = [(("OUTPUT"), tp), (("PROJECT_PATH"), spec.cwd), (("TEMP_PATH"), tp)]
    ∧ (cb.working_directory = none → spec.cwd = pp) := by
  unfold CustomBuild.prepare at h
  split at h
  · exact absurd h (by simp)
  · split at h
    · split at h
      · rename_i hwd
        split at h
        · injection h with h
          subst h
          exact ⟨rfl, fun hn => by rw [hwd] at hn; cases hn⟩
        · exact absurd h (by simp)
      · rename_i hwd
        injection h with h
        subst h
        exact ⟨rfl, fun _ => rfl⟩
    · exact absurd h (by simp)

theorem c4_env_amended_witness :
    (CustomBuild.mkSpawn c4build ("/proj/sub") ("/out")).env
      = [(("OUTPUT"), ("/out")),
         (("PROJECT_PATH"), (CustomBuild.mkSpawn c4build ("/proj/sub") ("/out")).cwd),
         (("TEMP_PATH"), ("/out"))]
    ∧ (c4build.working_directory = none →
        (CustomBuild.mkSpawn c4build ("/proj/sub") ("/out")).cwd = ("/proj")) :=
  c4_env_amended c4build c4fs ("/proj") ("/out")
    (CustomBuild.mkSpawn c4build ("/proj/sub") ("/out")) (by decide)

/-- C5 counterexample: an absolute working-directory override escapes
the project root (`Path::join` replaces the base when the right operand
is absolute), yet the build proceeds to spawn the script with that
directory — no subdirectory-of-project-root requirement is enforced. -/
theorem c5_counterexample :
    CustomBuild.prepare c5build c5fs ("/proj") ("/out")
      = Except.ok (CustomBuild.mkSpawn c5build ("/etc") ("/out"))
    ∧ isSubPathOf ("/etc") ("/proj") = false := by
  decide

/-- C5 (amended): with a declared working-directory override the build
fails before spawning unless `project_path.join(override)` exists — mere
existence, with no check that the resolved directory lies under the
project root (an absolute override replaces the root entirely).  When it
exists the script runs with the joined directory as its working
directory, and with the project path when no override is declared. -/
theorem c5_working_directory_amended (cb : CustomBuild) (fs : List String) (pp tp : String)
    (hv : cb.validate = Except.ok ()) (hpp : pp ∈ fs) :
    (∀ wd, cb.working_directory = some wd →
      (pathJoin pp wd ∈ fs →
        cb.prepare fs pp tp = Except.ok (cb.mkSpawn (pathJoin pp wd) tp)
        ∧ (cb.mkSpawn (pathJoin pp wd) tp).cwd = pathJoin pp wd)
      ∧ (pathJoin pp wd ∉ fs →
        cb.prepare fs pp tp
          = Except.error (CustomBuildError.missingWorkingDirectory (pathJoin pp wd))))
    ∧ (cb.working_directory = none →
      cb.prepare fs pp tp = Except.ok (cb.mkSpawn pp tp)
      ∧ (cb.mkSpawn pp tp).cwd = pp) := by
  constructor
  · intro wd hwd
    constructor
    · intro hex
      refine ⟨?_, rfl⟩
      unfold CustomBuild.prepare
      rw [hv, if_pos hpp, hwd]
      simp only [if_pos hex]
    · intro hex
      unfold CustomBuild.prepare
      rw [hv, if_pos hpp, hwd]
      simp only [if_neg hex]
  · intro hwd
    refine ⟨?_, rfl⟩
    unfold CustomBuild.prepare
    rw [hv, if_pos hpp, hwd]

theorem c5_working_directory_amended_witness :
    CustomBuild.prepare c5build c5fs ("/proj") ("/out")
      = Except.ok (CustomBuild.mkSpawn c5build (pathJoin ("/proj") ("/etc")) ("/out"))
    ∧ (CustomBuild.mkSpawn c5build (pathJoin ("/proj") ("/etc")) ("/out")).cwd
      = pathJoin ("/proj") ("/etc") :=
  ((c5_working_directory_amended c5build c5fs ("/proj") ("/out") (by decide) (by decide)).1
    ("/etc") rfl).1 (by decide)

/-- C2: package resolution follows the tie-break order configured-name,
then root-manifest match, then first-listed, and is deterministic (it is
a function of the metadata document).  With a configured name every
successful resolution yields a listed package of exactly that name, and
the package-not-found error occurs exactly when no listed package bears
the name.  With no configured name, a package whose manifest path is the
project root's `Cargo.toml` is returned whenever one exists; otherwise
the first listed package is returned, and the no-packages error occurs
exactly on an empty package list. -/
theorem c2_find_package_resolution (rb : RustBuild) (md : CargoMetadata) (pp : String) :
    (∀ n, rb.package_name = some n →
      (∀ p, rb.find_package md pp = Except.ok p → p ∈ md.packages ∧ p.name = n)
      ∧ (rb.find_package md pp = Except.error (PackageError.packageNotFound n)
          ↔ ∀ p ∈ md.packages, p.name ≠ n))
    ∧ (rb.package_name = none →
      ((∃ p ∈ md.packages, p.manifest_path = pathJoin pp ("Cargo.toml")) →
        ∃ p, rb.find_package md pp = Except.ok p
          ∧ p.manifest_path = pathJoin pp ("Cargo.toml")
          ∧ p ∈ md.packages)
      ∧ ((∀ p ∈ md.packages, p.manifest_path ≠ pathJoin pp ("Cargo.toml")) →
        (∀ q l, md.packages = q :: l → rb.find_package md pp = Except.ok q)
        ∧ (md.packages = [] →
            rb.find_package md pp = Except.error PackageError.noPackagesFound))) := by
  constructor
  · intro n hn
    simp only [RustBuild.find_package, hn]
    cases hf : md.packages.find? (fun p => p.name == n) with
    | some p =>
      have hmem := List.mem_of_find?_eq_some hf
      have hname : p.name = n := by
        have := List.find?_some hf
        simpa using this
      constructor
      · intro q hq
        injection hq with hq
        subst hq
        exact ⟨hmem, hname⟩
      · constructor
        · intro habs
          exact absurd habs (by simp)
        · intro hall
          exact absurd hname (hall p hmem)
    | none =>
      have hnone := List.find?_eq_none.mp hf
      constructor
      · intro q hq
        exact absurd hq (by simp)
      · constructor
        · intro _ p hp
          have := hnone p hp
          simpa using this
        · intro _
          rfl
  · intro hn
    simp only [RustBuild.find_package, hn]
    cases hf : md.packages.find? (fun p => p.manifest_path == pathJoin pp ("Cargo.toml")) with
    | some p =>
      have hmem := List.mem_of_find?_eq_some hf
      have hpath : p.manifest_path = pathJoin pp ("Cargo.toml") := by
        have := List.find?_some hf
        simpa using this
      constructor
      · intro _
        exact ⟨p, rfl, hpath, hmem⟩
      · intro hall
        exact absurd hpath (hall p hmem)
    | none =>
      have hnone := List.find?_eq_none.mp hf
      constructor
      · intro ⟨p, hp, hpath⟩
        have := hnone p hp
        simp at this
        exact absurd hpath this
      · intro _
        constructor
        · intro q l hql
          rw [hql]
          rfl
        · intro hnil
          rw [hnil]
          rfl

theorem c2_find_package_resolution_witness :
    (∃ p, RustBuild.find_package rbNone mdAB ("/proj") = Except.ok p
      ∧ p.manifest_path = pathJoin ("/proj") ("Cargo.toml")
      ∧ p ∈ mdAB.packages)
    ∧ (∀ p, RustBuild.find_package rbNamedB mdAB ("/proj") = Except.ok p →
        p ∈ mdAB.packages ∧ p.name = ("B")) :=
  ⟨((c2_find_package_resolution rbNone mdAB ("/proj")).2 rfl).1
      ⟨pkgA, by decide, by decide⟩,
   fun p hp => ((c2_find_package_resolution rbNamedB mdAB ("/proj")).1 ("B") rfl).1 p hp⟩

/-- `List.find?` returns the first satisfying element: everything before
it fails the predicate. -/
theorem find?_first_split {α : Type} (p : α → Bool) :
    ∀ (l : List α) (a : α), l.find? p = some a →
      p a = true ∧ ∃ pre post, l = pre ++ a :: post ∧ ∀ x ∈ pre, p x = false := by
  intro l
  induction l with
  | nil => intro a h; cases h
  | cons b bs ih =>
    intro a h
    cases hb : p b with
    | true =>
      rw [List.find?_cons_of_pos _ hb] at h
      injection h with h
      subst h
      exact ⟨hb, [], bs, rfl, by simp⟩
    | false =>
      rw [List.find?_cons_of_neg _ (by simp [hb])] at h
      obtain ⟨hpa, pre, post, hl, hpre⟩ := ih a h
      refine ⟨hpa, b :: pre, post, by rw [List.cons_append, hl], ?_⟩
      intro x hx
      rcases List.mem_cons.mp hx with hx | hx
      · rw [hx]; exact hb
      · exact hpre x hx

/-- C7: with a configured binary name, resolution returns a target of
exactly that name whose kind list includes `"bin"`, and the
target-not-found error occurs exactly when no bin-kind target bears the
name.  With no configured name, resolution yields the first bin-kind
target (everything listed before it is not bin-kind), and when no
bin-kind target exists the error carries the names of all the package's
targets. -/
theorem c7_find_binary_target_resolution (rb : RustBuild) (pkg : Package) :
    (∀ n, rb.binary_name = some n →
      (∀ t, rb.find_binary_target pkg = Except.ok t →
        t ∈ pkg.targets ∧ t.name = n ∧ isBinTarget t = true)
      ∧ (rb.find_binary_target pkg
          = Except.error (BinaryTargetError.binaryTargetNotFound n pkg.name)
        ↔ ∀ t ∈ pkg.targets, ¬ (isBinTarget t = true ∧ t.name = n)))
    ∧ (rb.binary_name = none →
      (∀ t, rb.find_binary_target pkg = Except.ok t →
        t ∈ pkg.targets ∧ isBinTarget t = true
        ∧ ∃ pre post, pkg.targets = pre ++ t :: post ∧ ∀ u ∈ pre, isBinTarget u = false)
      ∧ ((∀ t ∈ pkg.targets, isBinTarget t = false) →
        rb.find_binary_target pkg
          = Except.error
            (BinaryTargetError.noBinaryTargets pkg.name
              (pkg.targets.map CargoTarget.name)))) := by
  constructor
  · intro n hn
    simp only [RustBuild.find_binary_target, hn]
    cases hf : pkg.targets.find? (fun t => isBinTarget t && t.name == n) with
    | some t =>
      have hmem := List.mem_of_find?_eq_some hf
      have hprop : isBinTarget t = true ∧ t.name = n := by
        have := List.find?_some hf
        simpa using this
      constructor
      · intro u hu
        injection hu with hu
        subst hu
        exact ⟨hmem, hprop.2, hprop.1⟩
      · constructor
        · intro habs
          exact absurd habs (by simp)
        · intro hall
          exact absurd hprop (hall t hmem)
    | none =>
      have hnone := List.find?_eq_none.mp hf
      constructor
      · intro u hu
        exact absurd hu (by simp)
      · constructor
        · intro _ t ht
          have := hnone t ht
          simpa using this
        · intro _
          rfl
  · intro hn
    simp only [RustBuild.find_binary_target, hn]
    cases hf : pkg.targets.find? (fun t => isBinTarget t) with
    | some t =>
      have hmem := List.mem_of_find?_eq_some hf
      have hbin : isBinTarget t = true := List.find?_some hf
      obtain ⟨_, pre, post, hsplit, hpre⟩ := find?_first_split (fun t => isBinTarget t) pkg.targets t hf
      constructor
      · intro u hu
        injection hu with hu
        subst hu
        exact ⟨hmem, hbin, pre, post, hsplit, hpre⟩
      · intro hall
        exact absurd (hall t hmem) (by simp [hbin])
    | none =>
      constructor
      · intro u hu
        exact absurd hu (by simp)
      · intro _
        rfl

theorem c7_find_binary_target_resolution_witness :
    ({ name := ("B"), kind := [("bin")] } : CargoTarget) ∈ pkgB.targets
    ∧ ({ name := ("B"), kind := [("bin")] } : CargoTarget).name = ("B")
    ∧ isBinTarget { name := ("B"), kind := [("bin")] } = true :=
  ((c7_find_binary_target_resolution rbNamedB pkgB).1 ("B") rfl).1
    { name := ("B"), kind := [("bin")] } (by decide)

theorem isPrefixOf_append_list {α : Type} [DecidableEq α] (l r : List α) :
    l.isPrefixOf (l ++ r) = true := by
  induction l with
  | nil => cases r <;> rfl
  | cons a as ih => simpa [List.isPrefixOf] using ih

/-- Joining a relative name under a directory produces a path under that
directory. -/
theorem isSubPathOf_pathJoin (dir name : String)
    (h : strStartsWith name ("/") = false) :
    isSubPathOf (pathJoin dir name) dir = true := by
  unfold pathJoin
  rw [if_neg (by simp [h])]
  unfold isSubPathOf strStartsWith
  rw [String.data_append, String.data_append]
  exact isPrefixOf_append_list (dir.data ++ ("/").data) name.data

theorem dropWhile_append_of_forall {p : Char → Bool} :
    ∀ (cs l : List Char), (∀ c ∈ cs, p c = true) →
      (cs ++ l).dropWhile p = l.dropWhile p := by
  intro cs
  induction cs with
  | nil => intro l _; rfl
  | cons a as ih =>
    intro l h
    have ha : p a = true := h a (by simp)
    rw [List.cons_append, List.dropWhile_cons_of_pos ha]
    exact ih l (fun c hc => h c (by simp [hc]))

/-- The parent of `temp_path/bootstrap` is `temp_path` itself, whatever
the staging directory is. -/
theorem dirname_pathJoin_bootstrap (temp_path : String) :
    dirname (pathJoin temp_path ("bootstrap")) = some temp_path := by
  obtain ⟨d⟩ := temp_path
  unfold pathJoin
  rw [if_neg (by decide)]
  unfold dirname
  rw [String.data_append, String.data_append, List.append_assoc, List.reverse_append,
    List.reverse_append, List.append_assoc]
  rw [dropWhile_append_of_forall _ _ (by decide)]
  rw [show ((("/").data.reverse ++ (String.mk d).data.reverse))
      = '/' :: d.reverse from rfl]
  rw [List.dropWhile_cons_of_neg (by decide)]
  simp

theorem filter_eq_nil_of_subset {α : Type} (p q : α → Bool) (l : List α)
    (h : ∀ x ∈ l, p x = false) :
    (l.filter q).filter p = [] := by
  rw [List.filter_eq_nil]
  intro a ha
  have := h a (List.mem_of_mem_filter ha)
  simp [this]

/-- C8: a successful copy into an initially empty staging directory
leaves exactly one file under that directory — the binary's bytes under
the canonical name `bootstrap` — and the parent directory entry is
present (created as needed). -/
theorem c8_copy_binary_output (fs : FsState) (binary_path temp_path : String) (c : List Nat)
    (hbin : fs.files.lookup binary_path = some c)
    (hempty : fs.filesUnder temp_path = []) :
    ∃ fs2, copy_binary fs binary_path temp_path = Except.ok fs2
      ∧ fs2.filesUnder temp_path = [(pathJoin temp_path ("bootstrap"), c)]
      ∧ temp_path ∈ fs2.dirs := by
  have hsub : ∀ kv ∈ fs.files, isSubPathOf kv.1 temp_path = false := by
    intro kv hkv
    have hforall := List.filter_eq_nil.mp hempty kv hkv
    simpa using hforall
  have hout : isSubPathOf (pathJoin temp_path ("bootstrap")) temp_path = true :=
    isSubPathOf_pathJoin temp_path ("bootstrap") (by decide)
  refine
    ⟨{ files :=
        (pathJoin temp_path ("bootstrap"), c)
          :: fs.files.filter (fun kv => kv.1 != pathJoin temp_path ("bootstrap")),
       dirs := addDir fs.dirs temp_path }, ?_, ?_, ?_⟩
  · unfold copy_binary
    rw [hbin, dirname_pathJoin_bootstrap]
  · unfold FsState.filesUnder
    simp only [List.filter_cons, hout, if_pos]
    rw [filter_eq_nil_of_subset _ _ fs.files (fun x hx => hsub x hx)]
  · unfold addDir
    by_cases hd : temp_path ∈ fs.dirs
    · simp [hd]
    · simp [hd]

theorem c8_copy_binary_output_witness :
    ∃ fs2, copy_binary c8fs ("/proj/target/x86_64-unknown-linux-musl/release/server")
        ("/tmp/nocti-build-1") = Except.ok fs2
      ∧ fs2.filesUnder ("/tmp/nocti-build-1")
          = [(pathJoin ("/tmp/nocti-build-1") ("bootstrap"), [7, 69, 76, 70])]
      ∧ ("/tmp/nocti-build-1") ∈ fs2.dirs :=
  c8_copy_binary_output c8fs ("/proj/target/x86_64-unknown-linux-musl/release/server")
    ("/tmp/nocti-build-1") [7, 69, 76, 70] (by decide) (by decide)

/-- The read loop's terminating read is determined by the write end:
with the writer closed it always ends on a clean zero-length read, with
the writer open it ends blocked. -/
theorem drainPipe_snd : ∀ (n : Nat) (buffer : List Nat), buffer.length ≤ n →
    ∀ (wc : Bool), (drainPipe buffer wc).2 = wc := by
  intro n
  induction n with
  | zero =>
    intro buffer hlen wc
    have hb : buffer = [] := List.length_eq_zero.mp (Nat.le_zero.mp hlen)
    rw [drainPipe, dif_pos hb]
  | succ m ih =>
    intro buffer hlen wc
    rw [drainPipe]
    by_cases hb : buffer = []
    · rw [dif_pos hb]
    · rw [dif_neg hb]
      have hpos : 0 < buffer.length := List.length_pos.mpr hb
      exact ih (buffer.drop CHUNK) (by simp only [List.length_drop, CHUNK]; omega) wc

/-- C1 counterexample: with the producer failed and the publish call
also failing, the pipeline reports the consumer's error — not the
producer's — and the producer branch is never awaited, refuting the
claim that both branches are awaited before deciding and that the
producer's error is the one reported. -/
theorem c1_counterexample :
    ¬ (archivePublishResult (Except.error ("tar append_dir_all error"))
          (Except.error ("Failed to push to registry"))
        = Except.error ("tar append_dir_all error")
      ∧ tarTaskAwaited (Except.error ("Failed to push to registry")) = true) := by
  decide

/-- C1 (amended): the tar task closes the write end when it finishes,
on success and failure alike, so the publisher's read loop always
terminates at a clean end-of-stream over the closed pipe (whereas an
open write end would leave it blocked rather than at end-of-stream).
The producer branch is awaited only after the publish call has
succeeded; in that case a producer failure becomes the pipeline's
result.  When the publish call fails, its error is returned immediately
and the tar task is not awaited. -/
theorem c1_archive_publish_amended (written : List Nat) (tarResult : Except String Unit)
    (pushResult : Except String String) :
    (drainPipe written true).2 = true
    ∧ (drainPipe written false).2 = false
    ∧ (∀ d, pushResult = Except.ok d → ∀ e, tarResult = Except.error e →
        archivePublishResult tarResult pushResult = Except.error e)
    ∧ (∀ d, pushResult = Except.ok d → tarResult = Except.ok () →
        archivePublishResult tarResult pushResult = Except.ok d)
    ∧ (∀ e, pushResult = Except.error e →
        archivePublishResult tarResult pushResult = Except.error e
        ∧ tarTaskAwaited pushResult = false) := by
  refine ⟨?_, ?_, ?_, ?_, ?_⟩
  · exact drainPipe_snd written.length written (Nat.le_refl _) true
  · exact drainPipe_snd written.length written (Nat.le_refl _) false
  · intro d hd e he
    rw [hd, he]
    rfl
  · intro d hd he
    rw [hd, he]
    rfl
  · intro e he
    rw [he]
    exact ⟨rfl, rfl⟩

theorem c1_archive_publish_amended_witness :
    archivePublishResult (Except.error ("tar append_dir_all error"))
        (Except.ok ("sha256:abc"))
      = Except.error ("tar append_dir_all error") :=
  ((c1_archive_publish_amended [1, 2, 3] (Except.error ("tar append_dir_all error"))
      (Except.ok ("sha256:abc"))).2.2.1 ("sha256:abc") rfl
    ("tar append_dir_all error") rfl)

end NoctiForge
